import Mathlib

/-!
WCTS cgi-bin mainline (`ogr/wcts/ogrwcts.cpp`).

A shallow embedding of the request dispatcher of `ogrwcts.cpp`: the request
reader, the operation router, the CRS descriptor decoder and the operation
handlers, together with the properties proved about them.

The program is a CGI process: it reads environment variables and standard
input, writes to standard output and ends through `exit` (or through a failed
`assert`).  The embedding passes the process state explicitly and records, in
addition to the text written to standard output, the calls made to the
collaborators that are not part of `ogrwcts.cpp` (XML parser, file finder, EPSG
importer, transformation factory).
-/

namespace WCTS

/-! ## Process state and control flow -/

/-- Calls to the external collaborators, in the order the program makes them. -/
inductive Event where
  /-- The call `CPLParseXMLString( pszXML )`, with the buffer contents before the terminator. -/
  | parse (pszXML : List Char)
  /-- The call `CPLFindFile( "etc", name )`. -/
  | findFile (name : String)
  /-- The call `oSRS.importFromEPSG( nEPSGCode )`. -/
  | importFromEPSG (nEPSGCode : Int)
  /-- The call `OGRCreateCoordinateTransformation( poSrcCRS, poDstCRS )`. -/
  | createCT (src dst : Int)
  deriving DecidableEq, Repr

/-- Observable state of the CGI process.  Bytes are modelled as characters. -/
structure Process where
  /-- Bytes of standard input that have not been read yet. -/
  stdin : List Char
  /-- End-of-file indicator of standard input (what `feof(stdin)` reports). -/
  feof : Bool
  /-- Everything written to standard output so far. -/
  stdout : String
  /-- Collaborator calls made so far. -/
  trace : List Event
  deriving DecidableEq, Repr

/-- How a piece of the program ends: it returns a value, or the process ends
through `exit( status )`, through a failed `assert`, or leaves the behaviour
defined by C (an `int` overflow, a read through a negative length). -/
inductive Result (α : Type) where
  | ret (a : α) (p : Process)
  | exit (status : Int) (p : Process)
  | abort (p : Process)
  | undefined (p : Process)
  deriving DecidableEq, Repr

/-- Process state in which a piece of the program ended. -/
def Result.proc {α : Type} : Result α → Process
  | .ret _ p => p
  | .exit _ p => p
  | .abort p => p
  | .undefined p => p

/-- A piece of the program: a function of the process state. -/
def Run (α : Type) : Type := Process → Result α

/-- Sequencing: the second part runs only if the first one returns. -/
def Run.bind {α β : Type} (m : Run α) (f : α → Run β) : Run β := fun p =>
  match m p with
  | .ret a q => f a q
  | .exit s q => .exit s q
  | .abort q => .abort q
  | .undefined q => .undefined q

instance : Monad Run where
  pure a := fun p => .ret a p
  bind := Run.bind

/-- The call `exit( status )`. -/
def exit {α : Type} (status : Int) : Run α := fun p => .exit status p

/-- The call `printf` with an already formatted text. -/
def printf (s : String) : Run Unit := fun p => .ret () { p with stdout := p.stdout ++ s }

/-- Record a call to a collaborator. -/
def call (e : Event) : Run Unit := fun p => .ret () { p with trace := p.trace ++ [e] }

/-! ## C library and CPL helpers -/

/-- Modelled from the spec: the macro `EQUAL` of `cpl_port.h` is not under `src/`;
the spec describes every use of it as a case-insensitive comparison. -/
def EQUAL (a b : String) : Bool :=
  a.toList.map Char.toLower == b.toList.map Char.toLower

/-- The white space that `atoi` skips. -/
def isspace (c : Char) : Bool :=
  c == ' ' || c == '\t' || c == '\n' || c == '\x0b' || c == '\x0c' || c == '\r'

/-- Value of the leading decimal digits of a text, continuing from `acc`. -/
def digits : List Char → Nat → Nat
  | [], acc => acc
  | c :: cs, acc => if c.isDigit then digits cs (acc * 10 + (c.toNat - '0'.toNat)) else acc

/-- The integer that a text starts with, as a mathematical integer: white space
is skipped, then an optional sign and the decimal digits that follow are read,
and the rest is ignored; a text without leading digits gives 0. -/
def leadingInteger (s : String) : Int :=
  match s.toList.dropWhile isspace with
  | '-' :: cs => - (digits cs 0 : Int)
  | '+' :: cs => (digits cs 0 : Int)
  | cs => (digits cs 0 : Int)

/-- The largest value of the C type `int` (32 bits). -/
def INT_MAX : Int := 2147483647

/-- The smallest value of the C type `int` (32 bits). -/
def INT_MIN : Int := -2147483648

/-- The C library function `strtol` in base 10 with a 64-bit `long`: the leading
integer of the text, held at `LONG_MAX` or `LONG_MIN` when it lies beyond. -/
def strtol (s : String) : Int :=
  if leadingInteger s > 9223372036854775807 then 9223372036854775807
  else if leadingInteger s < -9223372036854775808 then -9223372036854775808
  else leadingInteger s

/-- Conversion of a `long` to the 32-bit `int`: the value modulo 2^32, taken in
the range from `INT_MIN` to `INT_MAX`. -/
def toInt (v : Int) : Int := (v + 2147483648) % 4294967296 - 2147483648

/-- The C library function `atoi`, whose result the source stores in an `int`
(lines 112 and 239).  For a leading integer within the range of `int` it is that
integer.  Beyond the range the C standard leaves the result open; it is modelled
as the C library computes it, `(int) strtol( s, NULL, 10 )`. -/
def atoi (s : String) : Int := toInt (strtol s)

/-! ## WCTSEmitServiceException -/

/-- Text written by `WCTSEmitServiceException( pszMessage )`. -/
def serviceExceptionReport (pszMessage : String) : String :=
  "Content-type: application/vnd.ogc.se_xml\n\n"
  ++ "<?xml version='1.0' encoding=\"ISO-8859-1\" standalone=\"no\" ?>\n"
  ++ "<!DOCTYPE ServiceExceptionReport SYSTEM \"http://www.digitalearth.gov/wmt/xml/exception_1_1_0.dtd\">\n"
  ++ "<ServiceExceptionReport version=\"1.1.0\">\n"
  ++ "<ServiceException>\n"
  ++ pszMessage ++ "\n"
  ++ "</ServiceException>\n"
  ++ "</ServiceExceptionReport>\n"

/-- The function `WCTSEmitServiceException`: writes the report and calls `exit( 1 )`. -/
def WCTSEmitServiceException {α : Type} (pszMessage : String) : Run α := do
  printf (serviceExceptionReport pszMessage)
  exit 1

/-! ## The XML tree (`cpl_minixml.h`) -/

/-- Modelled from the spec: the enumeration `CPLXMLNodeType` is declared in
`cpl_minixml.h`, which is not under `src/`.  The node kinds of `CPLXMLNode`
(`eType`); `main` tests for `CXT_Element`. -/
inductive CPLXMLNodeType where
  | CXT_Element
  | CXT_Text
  | CXT_Attribute
  | CXT_Comment
  | CXT_Literal
  deriving DecidableEq, Repr

/-- Modelled from the spec: the type `CPLXMLNode` is declared in `cpl_minixml.h`,
which is not under `src/`.  A node has a kind, a tag name or text (`pszValue`)
and child nodes; attributes and text content are child nodes of kind
`CXT_Attribute` and `CXT_Text`.  The chain of siblings (`psNext`) is a list. -/
inductive CPLXMLNode where
  | mk (eType : CPLXMLNodeType) (pszValue : String) (psChild : List CPLXMLNode)

/-- The field `eType`. -/
def CPLXMLNode.eType : CPLXMLNode → CPLXMLNodeType
  | .mk t _ _ => t

/-- The field `pszValue`. -/
def CPLXMLNode.pszValue : CPLXMLNode → String
  | .mk _ v _ => v

/-- The children of a node (`psChild` and its `psNext` chain). -/
def CPLXMLNode.psChild : CPLXMLNode → List CPLXMLNode
  | .mk _ _ c => c

/-- Modelled from the spec: the path splitting done inside `CPLGetXMLNode`
(`cpl_minixml.cpp`, not under `src/`).  Splits a dotted path into its non-empty
components; `cur` is the component being read. -/
def tokenize : List Char → List Char → List String
  | [], cur => if cur.isEmpty then [] else [String.mk cur]
  | c :: cs, cur =>
    if c == '.' then
      (if cur.isEmpty then tokenize cs [] else String.mk cur :: tokenize cs [])
    else tokenize cs (cur ++ [c])

/-- Modelled from the spec: the descent done inside `CPLGetXMLNode`
(`cpl_minixml.cpp`, not under `src/`; the spec: "nested element lookup").
Descends from a node along the components of a path: at each step the first
child that is not text and whose name equals the component, ignoring case. -/
def descend : CPLXMLNode → List String → Option CPLXMLNode
  | psRoot, [] => some psRoot
  | psRoot, tok :: rest =>
    match psRoot.psChild.find? (fun c => c.eType != .CXT_Text && EQUAL tok c.pszValue) with
    | none => none
    | some c => descend c rest

/-- Modelled from the spec: `CPLGetXMLNode` of `cpl_minixml.cpp` is not under
`src/`.  The spec: "dotted path notation denotes nested element lookup".
The result `none` stands for `NULL`. -/
def CPLGetXMLNode (psRoot : CPLXMLNode) (pszPath : String) : Option CPLXMLNode :=
  descend psRoot (tokenize pszPath.toList [])

/-- Modelled from the spec: the value selection done inside `CPLGetXMLValue`
(`cpl_minixml.cpp`, not under `src/`).  The text value carried by a node: the
text of an attribute, or the text of an element whose only child is text (the
spec: "attribute mapping", "optional text content"). -/
def nodeText (psTarget : CPLXMLNode) : Option String :=
  match psTarget.eType, psTarget.psChild with
  | .CXT_Attribute, c :: _ => some c.pszValue
  | .CXT_Element, [c] => if c.eType == .CXT_Text then some c.pszValue else none
  | _, _ => none

/-- Modelled from the spec: the lookup done inside `CPLGetXMLValue`
(`cpl_minixml.cpp`, not under `src/`).  The value found at a path below a node,
if there is one; a field is present when this is `some`. -/
def lookupValue (psRoot : CPLXMLNode) (pszPath : String) : Option String :=
  (CPLGetXMLNode psRoot pszPath).bind nodeText

/-- Modelled from the spec: `CPLGetXMLValue` of `cpl_minixml.cpp` is not under
`src/`.  It gives the value found at the path, and the default when the path
leads to no value (the spec: "absence", "Default (absent attribute)"). -/
def CPLGetXMLValue (psRoot : CPLXMLNode) (pszPath pszDefault : String) : String :=
  (lookupValue psRoot pszPath).getD pszDefault

/-! ## Environment and collaborators -/

/-- The object built by `oSRS.importFromEPSG( nEPSGCode )`, known by its code. -/
structure OGRSpatialReference where
  nEPSGCode : Int
  deriving DecidableEq, Repr

/-- What the process receives from outside `ogrwcts.cpp`: the CGI variables, the
build setting of `assert`, and the collaborators, taken as parameters. -/
structure Env where
  /-- The value of `getenv("REQUEST_METHOD")`, `none` for `NULL`. -/
  REQUEST_METHOD : Option String
  /-- The value of `getenv("CONTENT_LENGTH")`, `none` for `NULL`. -/
  CONTENT_LENGTH : Option String
  /-- Whether the program is compiled with `NDEBUG` (then `assert` does nothing). -/
  NDEBUG : Bool
  /-- The parser, given the buffer contents before the terminator (it reads them
  as a C string): the tree, or the message of the `CE_Failure` it raised. -/
  CPLParseXMLString : List Char → Except String (List CPLXMLNode)
  /-- Contents of `wcts_capabilities.xml.0.0.3` when `CPLFindFile` finds it and
  `VSIFOpen` opens it. -/
  capabilities : Option String
  /-- The EPSG importer: `none` for `OGRERR_NONE`, otherwise the text that
  `CPLGetLastErrorMsg()` gives after the failure. -/
  importFromEPSG : Int → Option String
  /-- Whether `OGRCreateCoordinateTransformation` gives an object (not `NULL`). -/
  OGRCreateCoordinateTransformation : OGRSpatialReference → OGRSpatialReference → Bool

/-! ## WCTSCollectRequest -/

/-- The function `WCTSCollectKVPRequest`. -/
def WCTSCollectKVPRequest : Run (List CPLXMLNode) := do
  WCTSEmitServiceException "KVP not supported yet."
  return []

/-- The call `fread( pszXML, 1, n, stdin )`: reads `n` bytes, or all that is left
when fewer are available; returns the bytes read. -/
def fread (n : Nat) : Run (List Char) := fun p =>
  .ret (p.stdin.take n)
    { p with stdin := p.stdin.drop n, feof := p.feof || decide (p.stdin.length < n) }

/-- The branch of `WCTSCollectRequest` taken when `CONTENT_LENGTH` is set
(lines 112-119); returns the buffer contents before the terminator.
`nContentLength` is an `int`: at `INT_MAX` the sum `nContentLength+1` of line 114
overflows, and a negative length makes `fread` and the store of the terminator
run outside the buffer; both leave the behaviour defined by C. -/
def readContentLength (pszContentLength : String) : Run (List Char) := do
  let nContentLength := atoi pszContentLength
  if nContentLength == INT_MAX then
    (fun p => Result.undefined p : Run Unit)
  if nContentLength < 0 then
    (fun p => Result.undefined p : Run Unit)
  let pszXML ← fread nContentLength.toNat
  if (pszXML.length : Int) < nContentLength then
    WCTSEmitServiceException "POST body is short."
  return pszXML

/-- The value of the macro `EOF`. -/
def EOF : Int := -1

/-- Conversion of the `int` that `fgetc` returns to the `char` stored in the buffer. -/
def toChar (v : Int) : Char := Char.ofNat (v % 256).toNat

/-- The growing buffer of `WCTSCollectRequest`: the bytes stored so far, their
number and the allocated size (both `int` in the source, unbounded here). -/
structure Buffer where
  pszXML : List Char
  nXMLLen : Nat
  nXMLMax : Nat
  deriving DecidableEq, Repr

/-- The body of the read loop after `fgetc` (lines 131-136): store the byte,
advance `nXMLLen`, and double the buffer when it is full. -/
def Buffer.store (b : Buffer) (c : Char) : Buffer :=
  let nXMLLen := b.nXMLLen + 1
  { pszXML := b.pszXML ++ [c]
    nXMLLen := nXMLLen
    nXMLMax := if nXMLLen == b.nXMLMax then b.nXMLMax * 2 else b.nXMLMax }

/-- The loop `while( !feof(stdin) ) ...` (lines 129-137), entered with the
end-of-file indicator clear and the given bytes unread.  Each iteration stores
what `fgetc` returns.  While bytes are left `fgetc` returns the next one; on the
empty stream it returns `EOF` and sets the indicator, so that iteration stores
the converted `EOF` and is the last one. -/
def readLoop : List Char → Buffer → Buffer
  | [], b => b.store (toChar EOF)
  | c :: cs, b => readLoop cs (b.store c)

/-- The branch of `WCTSCollectRequest` taken when `CONTENT_LENGTH` is not set
(lines 124-139); returns the buffer contents before the terminator. -/
def readToEOF : Run (List Char) := fun p =>
  let b : Buffer := { pszXML := [], nXMLLen := 0, nXMLMax := 100 }
  if p.feof then .ret b.pszXML p
  else .ret (readLoop p.stdin b).pszXML { p with stdin := [], feof := true }

/-- The end of `WCTSCollectRequest` (lines 145-153): parse the buffer and report
a parser failure. -/
def parseRequest (env : Env) (pszXML : List Char) : Run (List CPLXMLNode) := do
  call (.parse pszXML)
  match env.CPLParseXMLString pszXML with
  | .error msg => WCTSEmitServiceException msg
  | .ok psTree => return psTree

/-- The function `WCTSCollectRequest`. -/
def WCTSCollectRequest (env : Env) : Run (List CPLXMLNode) :=
  match env.REQUEST_METHOD with
  | none => WCTSEmitServiceException "REQUEST_METHOD not set."
  | some pszMethod =>
    if EQUAL pszMethod "GET" then WCTSCollectKVPRequest
    else do
      let pszXML ← (match env.CONTENT_LENGTH with
        | some pszContentLength => readContentLength pszContentLength
        | none => readToEOF)
      parseRequest env pszXML

/-! ## WCTSGetCapabilities -/

/-- The message built by `CPLSPrintf` in `WCTSGetCapabilities`. -/
def unsupportedServiceMessage (pszService : String) : String :=
  "Attempt to GetCapabilities for unsupported '" ++ pszService ++ "'\n"
  ++ "service.  Only WCTS supported."

/-- The function `WCTSGetCapabilities`. -/
def WCTSGetCapabilities (env : Env) (psOperation : CPLXMLNode) : Run Unit := do
  if !EQUAL (CPLGetXMLValue psOperation "service" "WCTS") "WCTS" then
    WCTSEmitServiceException
      (unsupportedServiceMessage (CPLGetXMLValue psOperation "service" "WCTS"))
  call (.findFile "wcts_capabilities.xml.0.0.3")
  match env.capabilities with
  | none =>
    WCTSEmitServiceException "WCTS server misconfigured, unable to find capabilities document."
  | some pszDoc => do
    printf "Content-type: test/xml\n\n"
    printf pszDoc
    exit 0

/-! ## WCTSImportCoordinateReferenceSystem -/

/-- The message for a missing or foreign code space (lines 235-236). -/
def codeSpaceMessage : String :=
  "Failed to decode CoordinateReferenceSystem with missing,\n"
  ++ "or non-EPSG Identifier.codeSpace"

/-- The message for a missing or zero code (lines 243-244). -/
def codeMessage : String :=
  "Failed to decode CoordinateReferenceSystem with missing,\n"
  ++ "or zero Identifier.code"

/-- The fallback message when the importer fails without a message. -/
def importFailedMessage (nEPSGCode : Int) : String :=
  "OGRSpatialReference::importFromEPSG(" ++ toString nEPSGCode
  ++ ") failed.  Is this a defined EPSG code?"

/-- The function `WCTSImportCoordinateReferenceSystem`. -/
def WCTSImportCoordinateReferenceSystem (env : Env) (psXMLCRS : CPLXMLNode) :
    Run OGRSpatialReference := do
  if !EQUAL (CPLGetXMLValue psXMLCRS "Identifier.codeSpace" "") "EPSG" then
    WCTSEmitServiceException codeSpaceMessage
  let nEPSGCode := atoi (CPLGetXMLValue psXMLCRS "Identifier.code" "0")
  if nEPSGCode == 0 then
    WCTSEmitServiceException codeMessage
  call (.importFromEPSG nEPSGCode)
  match env.importFromEPSG nEPSGCode with
  | some msg =>
    if msg.length > 0 then WCTSEmitServiceException msg
    else WCTSEmitServiceException (importFailedMessage nEPSGCode)
  | none => return { nEPSGCode := nEPSGCode }

/-! ## WCTSIsTransformable -/

/-- The response written by `WCTSIsTransformable` (lines 324-328). -/
def transformableResponse (pszResult : String) : String :=
  "Content-type: text/xml\n\n"
  ++ "<?xml version=\"1.0\" encoding=\"UTF-8\"?>\n"
  ++ "<TransformableResponse xmlns:xsi=\"http://www.w3.org/2001/XMLSchema-instance\" xsi:noNamespaceSchemaLocation=\"http://www.deegree.org/xml/schemas/wcts/transformableResponse.xsd\" transformable=\""
  ++ pszResult ++ "\"/>\n"

/-- The function `WCTSIsTransformable`. -/
def WCTSIsTransformable (env : Env) (psOperation : CPLXMLNode) : Run Unit := do
  match CPLGetXMLNode psOperation "SourceCRS.CoordinateReferenceSystem" with
  | none => WCTSEmitServiceException "Unable to identify SourceCRS.CoordinateReferenceSystem"
  | some psSrcXMLCRS =>
    let poSrcCRS ← WCTSImportCoordinateReferenceSystem env psSrcXMLCRS
    match CPLGetXMLNode psOperation "DestinationCRS.CoordinateReferenceSystem" with
    | none =>
      WCTSEmitServiceException "Unable to identify DestinationCRS.CoordinateReferenceSystem"
    | some psDstXMLCRS =>
      let poDstCRS ← WCTSImportCoordinateReferenceSystem env psDstXMLCRS
      call (.createCT poSrcCRS.nEPSGCode poDstCRS.nEPSGCode)
      let pszResult :=
        if env.OGRCreateCoordinateTransformation poSrcCRS poDstCRS then "true" else "false"
      printf (transformableResponse pszResult)
      exit 0

/-! ## WCTSTransform and main -/

/-- The function `WCTSTransform`: its body is empty. -/
def WCTSTransform (_psOperation : CPLXMLNode) : Run Unit :=
  return ()

/-- The statement `assert( FALSE )`: ends the process abnormally, unless the
program is compiled with `NDEBUG`. -/
def assertFALSE (env : Env) : Run Unit := fun p =>
  if env.NDEBUG then .ret () p else .abort p

/-- The loop of `main` over the top-level nodes (lines 365-392). -/
def mainLoop (env : Env) : List CPLXMLNode → Run Unit
  | [] => return ()
  | psOperation :: psNext => do
    if psOperation.eType == .CXT_Element && EQUAL psOperation.pszValue "GetCapabilities" then
      WCTSGetCapabilities env psOperation
      assertFALSE env
    else if psOperation.eType == .CXT_Element && EQUAL psOperation.pszValue "Transformable" then
      WCTSIsTransformable env psOperation
      assertFALSE env
    else if psOperation.eType == .CXT_Element && EQUAL psOperation.pszValue "Transform" then
      WCTSTransform psOperation
      assertFALSE env
    else if psOperation.eType == .CXT_Element
        && EQUAL psOperation.pszValue "DescribeTransformation" then
      WCTSEmitServiceException
        "This server does not support the DescribeTransformation operation."
    mainLoop env psNext

/-- The end of `main` after a request tree has been collected (lines 365-395). -/
def route (env : Env) (psRequest : List CPLXMLNode) : Run Unit := do
  mainLoop env psRequest
  WCTSEmitServiceException "No recognisable supported request found."
  exit 1

/-- The function `main`.  The two registration calls before the request is
collected (`RegisterOGRGML`, `CPLPushFinderLocation`) have no effect on the
process state modelled here. -/
def main (env : Env) : Run Unit := do
  let psRequest ← WCTSCollectRequest env
  route env psRequest

/-- The state in which the process starts. -/
def start (stdin : List Char) : Process :=
  { stdin := stdin, feof := false, stdout := "", trace := [] }

/-! ## Notions used to state the properties -/

/-- A top-level node that the loop of `main` treats as an operation: an element
whose tag equals one of the four operation names, ignoring case. -/
def recognised (n : CPLXMLNode) : Bool :=
  n.eType == .CXT_Element
    && (EQUAL n.pszValue "GetCapabilities" || EQUAL n.pszValue "Transformable"
      || EQUAL n.pszValue "Transform" || EQUAL n.pszValue "DescribeTransformation")

/-- Numeric content in the sense of the specification: a non-empty text made of
decimal digits only, after an optional sign. -/
def numericContent (s : String) : Bool :=
  match s.toList with
  | '-' :: cs => !cs.isEmpty && cs.all Char.isDigit
  | '+' :: cs => !cs.isEmpty && cs.all Char.isDigit
  | cs => !cs.isEmpty && cs.all Char.isDigit

/-- The outcomes of a piece of the program that was started with `out` on standard
output and writes at most one response: if it returns, or ends through a failed
`assert` or outside the defined behaviour, it has written nothing; if it ends
through `exit`, it has written one ServiceExceptionReport and the status is 1,
or it has written the capabilities document or a TransformableResponse and the
status is 0. -/
def Responds (out : String) {α : Type} : Result α → Prop
  | .ret _ q => q.stdout = out
  | .exit status q =>
    (status = 1 ∧ ∃ msg, q.stdout = out ++ serviceExceptionReport msg)
    ∨ (status = 0
      ∧ ((∃ pszDoc, q.stdout = out ++ "Content-type: test/xml\n\n" ++ pszDoc)
        ∨ ∃ pszResult, q.stdout = out ++ transformableResponse pszResult))
  | .abort q => q.stdout = out
  | .undefined q => q.stdout = out

/-! ## Example inputs -/

/-- An element node. -/
def element (tag : String) (children : List CPLXMLNode) : CPLXMLNode :=
  .mk .CXT_Element tag children

/-- An element whose content is a text. -/
def textElement (tag value : String) : CPLXMLNode :=
  element tag [.mk .CXT_Text value []]

/-- A `CoordinateReferenceSystem` subtree with the given code space and code. -/
def crsNode (codeSpace code : String) : CPLXMLNode :=
  element "CoordinateReferenceSystem"
    [element "Identifier" [textElement "code" code, textElement "codeSpace" codeSpace]]

/-- A Transformable request from EPSG:4326 to EPSG:4326, with the tag in lower case. -/
def exampleTransformable : CPLXMLNode :=
  element "transformable"
    [element "SourceCRS" [crsNode "EPSG" "4326"],
     element "DestinationCRS" [crsNode "epsg" "4326"]]

/-- An example environment: the parser takes every body for the given tree, the
capabilities document exists, only EPSG code 4326 is defined, and the program is
compiled with `assert` enabled. -/
def exampleEnv (method contentLength : Option String) (tree : List CPLXMLNode) : Env :=
  { REQUEST_METHOD := method
    CONTENT_LENGTH := contentLength
    NDEBUG := false
    CPLParseXMLString := fun _ => .ok tree
    capabilities := some "<WCTS_Capabilities version=\"0.0.3\"/>\n"
    importFromEPSG := fun c => if c == 4326 then none else some ""
    OGRCreateCoordinateTransformation := fun _ _ => true }

/-! ## Basic facts about the control flow -/

theorem bind_apply {α β : Type} (m : Run α) (f : α → Run β) (p : Process) :
    (m >>= f) p = match m p with
      | .ret a q => f a q
      | .exit s q => .exit s q
      | .abort q => .abort q
      | .undefined q => .undefined q := rfl

theorem emit_apply {α : Type} (pszMessage : String) (p : Process) :
    (WCTSEmitServiceException pszMessage : Run α) p
      = .exit 1 { p with stdout := p.stdout ++ serviceExceptionReport pszMessage } := rfl

/-- The default of `CPLGetXMLValue` is used exactly when no value is found. -/
theorem getValue_eq (psRoot : CPLXMLNode) (pszPath pszDefault : String) :
    CPLGetXMLValue psRoot pszPath pszDefault
      = match lookupValue psRoot pszPath with
        | some v => v
        | none => pszDefault := by
  unfold CPLGetXMLValue
  cases lookupValue psRoot pszPath <;> rfl

theorem trace_append_ne (t : List Event) (e : Event) : t ≠ t ++ [e] := by
  intro h
  have := congrArg List.length h
  simp at this

/-- Within the range of `int`, `atoi` gives the leading integer of the text. -/
theorem atoi_of_range (s : String) (h1 : INT_MIN ≤ leadingInteger s)
    (h2 : leadingInteger s ≤ INT_MAX) : atoi s = leadingInteger s := by
  unfold INT_MIN at h1
  unfold INT_MAX at h2
  unfold atoi strtol toInt
  split_ifs <;> omega

/-! ## GET requests -/

/-- Claim C9.  A request whose `REQUEST_METHOD` is `GET` (in any letter case) ends
with exactly the ServiceExceptionReport for "KVP not supported yet." appended
to the output: standard input is left unread, no collaborator (parser included)
is called, and the outcome does not depend on `CONTENT_LENGTH`, the input
stream or any other part of the environment, so two GET requests started in
the same state produce identical output. -/
theorem get_request_rejected (env env2 : Env) (pszMethod pszMethod2 : String)
    (p : Process) (stdin2 : List Char)
    (hm : env.REQUEST_METHOD = some pszMethod) (hget : EQUAL pszMethod "GET" = true)
    (hm2 : env2.REQUEST_METHOD = some pszMethod2) (hget2 : EQUAL pszMethod2 "GET" = true) :
    main env p
        = .exit 1 { p with stdout := p.stdout ++ serviceExceptionReport "KVP not supported yet." }
      ∧ (main env p).proc.stdin = p.stdin
      ∧ (main env p).proc.trace = p.trace
      ∧ (main env2 { p with stdin := stdin2 }).proc.stdout = (main env p).proc.stdout := by
  have h1 : ∀ (e : Env) (m : String) (q : Process), e.REQUEST_METHOD = some m →
      EQUAL m "GET" = true →
      main e q = .exit 1
        { q with stdout := q.stdout ++ serviceExceptionReport "KVP not supported yet." } := by
    intro e m q hq hg
    simp only [main, WCTSCollectRequest, hq, hg, if_true, bind_apply, WCTSCollectKVPRequest,
      emit_apply]
  rw [h1 env pszMethod p hm hget, h1 env2 pszMethod2 _ hm2 hget2]
  simp [Result.proc]

theorem get_request_rejected_witness :
    EQUAL "GET" "GET" = true ∧ EQUAL "get" "GET" = true
      ∧ main (exampleEnv (some "GET") (some "5") []) (start "abc".toList)
        = .exit 1 { start "abc".toList with
            stdout := "" ++ serviceExceptionReport "KVP not supported yet." }
      ∧ (main (exampleEnv (some "get") none [textElement "a" "b"])
            { start "abc".toList with stdin := [] }).proc.stdout
          = (main (exampleEnv (some "GET") (some "5") []) (start "abc".toList)).proc.stdout :=
  have h := get_request_rejected (exampleEnv (some "GET") (some "5") [])
    (exampleEnv (some "get") none [textElement "a" "b"]) "GET" "get" (start "abc".toList) []
    rfl (by decide) rfl (by decide)
  ⟨by decide, by decide, h.1, h.2.2.2⟩

/-! ## The CRS descriptor decoder -/

/-- What `WCTSImportCoordinateReferenceSystem` does, by the outcome of its two checks. -/
theorem import_cases (env : Env) (psXMLCRS : CPLXMLNode) (p : Process) :
    (EQUAL (CPLGetXMLValue psXMLCRS "Identifier.codeSpace" "") "EPSG" = false →
      WCTSImportCoordinateReferenceSystem env psXMLCRS p
        = .exit 1 { p with stdout := p.stdout ++ serviceExceptionReport codeSpaceMessage })
    ∧ (EQUAL (CPLGetXMLValue psXMLCRS "Identifier.codeSpace" "") "EPSG" = true →
      atoi (CPLGetXMLValue psXMLCRS "Identifier.code" "0") = 0 →
      WCTSImportCoordinateReferenceSystem env psXMLCRS p
        = .exit 1 { p with stdout := p.stdout ++ serviceExceptionReport codeMessage })
    ∧ (EQUAL (CPLGetXMLValue psXMLCRS "Identifier.codeSpace" "") "EPSG" = true →
      atoi (CPLGetXMLValue psXMLCRS "Identifier.code" "0") ≠ 0 →
      WCTSImportCoordinateReferenceSystem env psXMLCRS p
        = match env.importFromEPSG (atoi (CPLGetXMLValue psXMLCRS "Identifier.code" "0")) with
          | some msg =>
            .exit 1 { p with
              stdout := p.stdout ++ serviceExceptionReport
                (if msg.length > 0 then msg
                  else importFailedMessage (atoi (CPLGetXMLValue psXMLCRS "Identifier.code" "0")))
              trace := p.trace ++
                [.importFromEPSG (atoi (CPLGetXMLValue psXMLCRS "Identifier.code" "0"))] }
          | none =>
            .ret { nEPSGCode := atoi (CPLGetXMLValue psXMLCRS "Identifier.code" "0") }
              { p with trace := p.trace ++
                [.importFromEPSG (atoi (CPLGetXMLValue psXMLCRS "Identifier.code" "0"))] }) := by
  refine ⟨?_, ?_, ?_⟩
  · intro h
    simp [WCTSImportCoordinateReferenceSystem, h, bind_apply, emit_apply]
  · intro h h0
    simp [WCTSImportCoordinateReferenceSystem, h, h0, bind_apply, emit_apply, pure]
  · intro h h0
    simp only [WCTSImportCoordinateReferenceSystem, h, bind_apply, pure]
    cases hi : env.importFromEPSG (atoi (CPLGetXMLValue psXMLCRS "Identifier.code" "0")) with
    | none => simp [h0, call, bind_apply]
    | some msg =>
      by_cases hl : msg.length > 0 <;> simp [h0, call, hl, emit_apply, bind_apply]

set_option maxRecDepth 100000 in
/-- Claim C7, refuted as stated.  For a CRS subtree with code space "OGC" the
message emitted is not the one-line text of the claim: the program's text has a
line break after "missing," where the claim has a space. -/
theorem codeSpace_message_has_line_break :
    WCTSImportCoordinateReferenceSystem (exampleEnv (some "POST") none []) (crsNode "OGC" "4326")
        (start [])
      = .exit 1 { start [] with
          stdout := serviceExceptionReport
            "Failed to decode CoordinateReferenceSystem with missing,\nor non-EPSG Identifier.codeSpace" }
    ∧ serviceExceptionReport
        "Failed to decode CoordinateReferenceSystem with missing,\nor non-EPSG Identifier.codeSpace"
      ≠ serviceExceptionReport
        "Failed to decode CoordinateReferenceSystem with missing, or non-EPSG Identifier.codeSpace" := by
  decide

/-- Claim C7 (as amended).  For every CRS subtree whose `Identifier.codeSpace` is
absent or does not equal "EPSG" ignoring case, the program emits exactly the
ServiceExceptionReport with the two-line message "Failed to decode
CoordinateReferenceSystem with missing," / "or non-EPSG Identifier.codeSpace",
whatever `Identifier.code` is, and exits; when the code space is valid and the
code is absent or reads as zero, it emits exactly the report with the two-line
message "Failed to decode CoordinateReferenceSystem with missing," / "or zero
Identifier.code".  In both cases nothing else is written and no collaborator is
called. -/
theorem decode_failure_messages (env : Env) (psXMLCRS : CPLXMLNode) (p : Process) :
    ((lookupValue psXMLCRS "Identifier.codeSpace" = none
        ∨ ∃ cs, lookupValue psXMLCRS "Identifier.codeSpace" = some cs ∧ EQUAL cs "EPSG" = false) →
      WCTSImportCoordinateReferenceSystem env psXMLCRS p
        = .exit 1 { p with
            stdout := p.stdout ++ serviceExceptionReport
              "Failed to decode CoordinateReferenceSystem with missing,\nor non-EPSG Identifier.codeSpace" })
    ∧ ((∃ cs, lookupValue psXMLCRS "Identifier.codeSpace" = some cs ∧ EQUAL cs "EPSG" = true) →
      (lookupValue psXMLCRS "Identifier.code" = none
        ∨ ∃ c, lookupValue psXMLCRS "Identifier.code" = some c ∧ atoi c = 0) →
      WCTSImportCoordinateReferenceSystem env psXMLCRS p
        = .exit 1 { p with
            stdout := p.stdout ++ serviceExceptionReport
              "Failed to decode CoordinateReferenceSystem with missing,\nor zero Identifier.code" }) := by
  have hm1 : codeSpaceMessage
      = "Failed to decode CoordinateReferenceSystem with missing,\nor non-EPSG Identifier.codeSpace" := by
    decide
  have hm2 : codeMessage
      = "Failed to decode CoordinateReferenceSystem with missing,\nor zero Identifier.code" := by
    decide
  obtain ⟨h1, h2, -⟩ := import_cases env psXMLCRS p
  refine ⟨?_, ?_⟩
  · intro h
    rw [← hm1]
    apply h1
    rw [getValue_eq]
    rcases h with h | ⟨cs, h, he⟩
    · rw [h]; decide
    · rw [h]; exact he
  · rintro ⟨cs, hcs, he⟩ h
    rw [← hm2]
    apply h2
    · rw [getValue_eq, hcs]; exact he
    · rw [getValue_eq]
      rcases h with h | ⟨c, h, hz⟩
      · rw [h]; decide
      · rw [h]; exact hz

/-- The amended claim C7 at concrete subtrees: code space "OGC", and code space
"epsg" with code "0". -/
theorem decode_failure_messages_witness :
    WCTSImportCoordinateReferenceSystem (exampleEnv (some "POST") none []) (crsNode "OGC" "4326")
        (start [])
      = .exit 1 { start [] with
          stdout := "" ++ serviceExceptionReport
            "Failed to decode CoordinateReferenceSystem with missing,\nor non-EPSG Identifier.codeSpace" }
    ∧ WCTSImportCoordinateReferenceSystem (exampleEnv (some "POST") none []) (crsNode "epsg" "0")
        (start [])
      = .exit 1 { start [] with
          stdout := "" ++ serviceExceptionReport
            "Failed to decode CoordinateReferenceSystem with missing,\nor zero Identifier.code" } :=
  ⟨(decode_failure_messages _ (crsNode "OGC" "4326") (start [])).1
      (Or.inr ⟨"OGC", by decide, by decide⟩),
    (decode_failure_messages _ (crsNode "epsg" "0") (start [])).2
      ⟨"epsg", by decide, by decide⟩ (Or.inr ⟨"0", by decide, by decide⟩)⟩

/-- The code space check passes exactly when a code space is found and equals
"EPSG" ignoring case. -/
theorem codeSpace_check_iff (psXMLCRS : CPLXMLNode) :
    EQUAL (CPLGetXMLValue psXMLCRS "Identifier.codeSpace" "") "EPSG" = true
      ↔ ∃ cs, lookupValue psXMLCRS "Identifier.codeSpace" = some cs ∧ EQUAL cs "EPSG" = true := by
  rw [getValue_eq]
  cases h : lookupValue psXMLCRS "Identifier.codeSpace" with
  | none =>
    constructor
    · intro h'; exact absurd h' (by decide)
    · rintro ⟨cs, hcs, -⟩; cases hcs
  | some v =>
    constructor
    · intro h'; exact ⟨v, rfl, h'⟩
    · rintro ⟨cs, hcs, he⟩
      cases hcs
      exact he

/-- The code check passes exactly when a code is found and `atoi` reads it as a
non-zero integer. -/
theorem code_check_iff (psXMLCRS : CPLXMLNode) :
    atoi (CPLGetXMLValue psXMLCRS "Identifier.code" "0") ≠ 0
      ↔ ∃ c, lookupValue psXMLCRS "Identifier.code" = some c ∧ atoi c ≠ 0 := by
  rw [getValue_eq]
  cases h : lookupValue psXMLCRS "Identifier.code" with
  | none =>
    constructor
    · intro h'; exact absurd (by decide) h'
    · rintro ⟨c, hc, -⟩; cases hc
  | some v =>
    constructor
    · intro h'; exact ⟨v, rfl, h'⟩
    · rintro ⟨c, hc, he⟩
      cases hc
      exact he

/-- Claim C2, refuted as stated.  The code "4326abc" is not numeric content, yet
the subtree passes validation: `atoi` reads the leading digits and the importer
is called with 4326. -/
theorem import_accepts_trailing_text :
    lookupValue (crsNode "EPSG" "4326abc") "Identifier.code" = some "4326abc"
    ∧ numericContent "4326abc" = false
    ∧ WCTSImportCoordinateReferenceSystem (exampleEnv (some "POST") none [])
          (crsNode "EPSG" "4326abc") (start [])
        = .ret { nEPSGCode := 4326 } { start [] with trace := [.importFromEPSG 4326] } := by
  decide

/-- The decoder in terms of the `int` that `atoi` gives: it reaches the EPSG
resolution step exactly when the code space is present and equals "EPSG" and
the code is present and is stored as a non-zero `int`; otherwise it ends with
one of the two decode messages and the importer is not called. -/
theorem import_reaches_resolution_int (env : Env) (psXMLCRS : CPLXMLNode) (p : Process) :
    ((WCTSImportCoordinateReferenceSystem env psXMLCRS p).proc.trace
        = p.trace ++ [.importFromEPSG (atoi (CPLGetXMLValue psXMLCRS "Identifier.code" "0"))]
      ↔ ((∃ cs, lookupValue psXMLCRS "Identifier.codeSpace" = some cs ∧ EQUAL cs "EPSG" = true)
        ∧ ∃ c, lookupValue psXMLCRS "Identifier.code" = some c ∧ atoi c ≠ 0))
    ∧ (¬ ((∃ cs, lookupValue psXMLCRS "Identifier.codeSpace" = some cs ∧ EQUAL cs "EPSG" = true)
        ∧ ∃ c, lookupValue psXMLCRS "Identifier.code" = some c ∧ atoi c ≠ 0) →
      (WCTSImportCoordinateReferenceSystem env psXMLCRS p).proc.trace = p.trace
      ∧ ∃ msg, (msg = codeSpaceMessage ∨ msg = codeMessage)
        ∧ WCTSImportCoordinateReferenceSystem env psXMLCRS p
          = .exit 1 { p with stdout := p.stdout ++ serviceExceptionReport msg }) := by
  obtain ⟨h1, h2, h3⟩ := import_cases env psXMLCRS p
  rw [← codeSpace_check_iff, ← code_check_iff]
  by_cases hcs : EQUAL (CPLGetXMLValue psXMLCRS "Identifier.codeSpace" "") "EPSG" = true
  · by_cases hc : atoi (CPLGetXMLValue psXMLCRS "Identifier.code" "0") = 0
    · have hr := h2 hcs hc
      refine ⟨?_, fun _ => ⟨by rw [hr]; rfl, codeMessage, Or.inr rfl, hr⟩⟩
      rw [hr]
      constructor
      · intro h; exact absurd h (trace_append_ne _ _)
      · rintro ⟨-, h⟩; exact absurd hc h
    · have hr := h3 hcs hc
      refine ⟨?_, fun h => absurd ⟨hcs, hc⟩ h⟩
      rw [hr]
      constructor
      · intro _; exact ⟨hcs, hc⟩
      · intro _
        cases env.importFromEPSG (atoi (CPLGetXMLValue psXMLCRS "Identifier.code" "0")) <;> rfl
  · have hr := h1 (by simpa using hcs)
    refine ⟨?_, fun _ => ⟨by rw [hr]; rfl, codeSpaceMessage, Or.inl rfl, hr⟩⟩
    rw [hr]
    constructor
    · intro h; exact absurd h (trace_append_ne _ _)
    · rintro ⟨h, -⟩; exact absurd h hcs

set_option maxRecDepth 100000 in
/-- A code beyond the range of `int`: "4294967296" is stored as 0 in the `int`
`nEPSGCode` and the subtree is refused with the zero-code message. -/
theorem import_rejects_code_beyond_int :
    leadingInteger "4294967296" = 4294967296
    ∧ WCTSImportCoordinateReferenceSystem (exampleEnv (some "POST") none [])
          (crsNode "EPSG" "4294967296") (start [])
        = .exit 1 { start [] with stdout := serviceExceptionReport codeMessage } := by
  decide

/-- Claim C2 (as amended).  For every CRS subtree whose `Identifier.code`, when
present, starts with an integer (optional white space, optional sign, decimal
digits, as `atoi` reads it) within the range of `int`,
`WCTSImportCoordinateReferenceSystem` reaches the EPSG resolution step (calls
the importer, with that integer) if and only if `Identifier.codeSpace` is
present and equals "EPSG" ignoring case and `Identifier.code` is present and
its leading integer is not zero, whatever follows the digits.  In every other
case it ends with exit status 1 after a ServiceExceptionReport carrying one of
the two decode messages and the importer is never called. -/
theorem import_reaches_resolution_iff (env : Env) (psXMLCRS : CPLXMLNode) (p : Process)
    (hrange : ∀ c, lookupValue psXMLCRS "Identifier.code" = some c →
      INT_MIN ≤ leadingInteger c ∧ leadingInteger c ≤ INT_MAX) :
    ((WCTSImportCoordinateReferenceSystem env psXMLCRS p).proc.trace
        = p.trace ++
          [.importFromEPSG (leadingInteger (CPLGetXMLValue psXMLCRS "Identifier.code" "0"))]
      ↔ ((∃ cs, lookupValue psXMLCRS "Identifier.codeSpace" = some cs ∧ EQUAL cs "EPSG" = true)
        ∧ ∃ c, lookupValue psXMLCRS "Identifier.code" = some c ∧ leadingInteger c ≠ 0))
    ∧ (¬ ((∃ cs, lookupValue psXMLCRS "Identifier.codeSpace" = some cs ∧ EQUAL cs "EPSG" = true)
        ∧ ∃ c, lookupValue psXMLCRS "Identifier.code" = some c ∧ leadingInteger c ≠ 0) →
      (WCTSImportCoordinateReferenceSystem env psXMLCRS p).proc.trace = p.trace
      ∧ ∃ msg, (msg = codeSpaceMessage ∨ msg = codeMessage)
        ∧ WCTSImportCoordinateReferenceSystem env psXMLCRS p
          = .exit 1 { p with stdout := p.stdout ++ serviceExceptionReport msg }) := by
  have hc : ∀ c, lookupValue psXMLCRS "Identifier.code" = some c →
      atoi c = leadingInteger c :=
    fun c h => atoi_of_range c (hrange c h).1 (hrange c h).2
  have hv : atoi (CPLGetXMLValue psXMLCRS "Identifier.code" "0")
      = leadingInteger (CPLGetXMLValue psXMLCRS "Identifier.code" "0") := by
    rw [getValue_eq]
    cases h : lookupValue psXMLCRS "Identifier.code" with
    | none => decide
    | some c => exact hc c h
  have hex : (∃ c, lookupValue psXMLCRS "Identifier.code" = some c ∧ atoi c ≠ 0)
      ↔ ∃ c, lookupValue psXMLCRS "Identifier.code" = some c ∧ leadingInteger c ≠ 0 := by
    constructor
    · rintro ⟨c, h, hne⟩
      exact ⟨c, h, by rw [← hc c h]; exact hne⟩
    · rintro ⟨c, h, hne⟩
      exact ⟨c, h, by rw [hc c h]; exact hne⟩
  have hint := import_reaches_resolution_int env psXMLCRS p
  rw [hv, hex] at hint
  exact hint

set_option maxRecDepth 100000 in
/-- The amended claim C2 at a concrete subtree: code space "epsg" and code "4326"
reach the importer with 4326. -/
theorem import_reaches_resolution_iff_witness :
    (WCTSImportCoordinateReferenceSystem (exampleEnv (some "POST") none [])
        (crsNode "epsg" "4326") (start [])).proc.trace
      = [] ++ [.importFromEPSG
          (leadingInteger (CPLGetXMLValue (crsNode "epsg" "4326") "Identifier.code" "0"))]
    ∧ leadingInteger (CPLGetXMLValue (crsNode "epsg" "4326") "Identifier.code" "0") = 4326 :=
  ⟨(import_reaches_resolution_iff (exampleEnv (some "POST") none []) (crsNode "epsg" "4326")
      (start [])
      (fun c hc => by
        have h : lookupValue (crsNode "epsg" "4326") "Identifier.code" = some "4326" := by
          decide
        rw [h] at hc
        cases hc
        decide)).1.mpr
      ⟨⟨"epsg", by decide, by decide⟩, ⟨"4326", by decide, by decide⟩⟩,
    by decide⟩

/-! ## GetCapabilities -/

/-- What `WCTSGetCapabilities` does, by the outcome of the service check. -/
theorem getCapabilities_cases (env : Env) (psOperation : CPLXMLNode) (p : Process) :
    (EQUAL (CPLGetXMLValue psOperation "service" "WCTS") "WCTS" = false →
      WCTSGetCapabilities env psOperation p
        = .exit 1 { p with
            stdout := p.stdout ++ serviceExceptionReport
              (unsupportedServiceMessage (CPLGetXMLValue psOperation "service" "WCTS")) })
    ∧ (EQUAL (CPLGetXMLValue psOperation "service" "WCTS") "WCTS" = true →
      WCTSGetCapabilities env psOperation p
        = match env.capabilities with
          | none =>
            .exit 1 { p with
              stdout := p.stdout ++ serviceExceptionReport
                "WCTS server misconfigured, unable to find capabilities document."
              trace := p.trace ++ [.findFile "wcts_capabilities.xml.0.0.3"] }
          | some pszDoc =>
            .exit 0 { p with
              stdout := p.stdout ++ "Content-type: test/xml\n\n" ++ pszDoc
              trace := p.trace ++ [.findFile "wcts_capabilities.xml.0.0.3"] }) := by
  refine ⟨?_, ?_⟩
  · intro h
    simp [WCTSGetCapabilities, h, bind_apply, emit_apply]
  · intro h
    cases hc : env.capabilities <;>
      simp [WCTSGetCapabilities, h, hc, bind_apply, emit_apply, call, printf, exit, pure]

set_option maxRecDepth 100000 in
/-- Claim C4, refuted as stated.  Two Transformable nodes without a
`DestinationCRS.CoordinateReferenceSystem` subtree whose response does not name
the destination side: one without any subtree (the response names the source
side), one whose source subtree has code space "OGC" (the response is the code
space message). -/
theorem missing_destination_not_named :
    (CPLGetXMLNode (element "Transformable" [])
        "DestinationCRS.CoordinateReferenceSystem").isNone = true
    ∧ WCTSIsTransformable (exampleEnv (some "POST") none []) (element "Transformable" [])
        (start [])
      = .exit 1 { start [] with
          stdout := serviceExceptionReport
            "Unable to identify SourceCRS.CoordinateReferenceSystem" }
    ∧ ¬ ("DestinationCRS".toList <:+:
        (serviceExceptionReport "Unable to identify SourceCRS.CoordinateReferenceSystem").toList)
    ∧ (CPLGetXMLNode (element "Transformable" [element "SourceCRS" [crsNode "OGC" "4326"]])
        "DestinationCRS.CoordinateReferenceSystem").isNone = true
    ∧ WCTSIsTransformable (exampleEnv (some "POST") none [])
        (element "Transformable" [element "SourceCRS" [crsNode "OGC" "4326"]]) (start [])
      = .exit 1 { start [] with stdout := serviceExceptionReport codeSpaceMessage }
    ∧ ¬ ("DestinationCRS".toList <:+: (serviceExceptionReport codeSpaceMessage).toList) := by
  decide

/-- Claim C4 (as amended).  A Transformable node with no
`SourceCRS.CoordinateReferenceSystem` subtree always gets the ServiceException
"Unable to identify SourceCRS.CoordinateReferenceSystem".  A node with no
`DestinationCRS.CoordinateReferenceSystem` subtree gets the ServiceException
"Unable to identify DestinationCRS.CoordinateReferenceSystem" when its source
subtree is present and is decoded and resolved successfully; the source side is
handled first, and when it fails the request ends with the source-side failure. -/
theorem isTransformable_missing_side (env : Env) (psOperation : CPLXMLNode) (p : Process) :
    (CPLGetXMLNode psOperation "SourceCRS.CoordinateReferenceSystem" = none →
      WCTSIsTransformable env psOperation p
        = .exit 1 { p with
            stdout := p.stdout ++ serviceExceptionReport
              "Unable to identify SourceCRS.CoordinateReferenceSystem" })
    ∧ (∀ psSrcXMLCRS poSrcCRS q,
      CPLGetXMLNode psOperation "SourceCRS.CoordinateReferenceSystem" = some psSrcXMLCRS →
      WCTSImportCoordinateReferenceSystem env psSrcXMLCRS p = .ret poSrcCRS q →
      CPLGetXMLNode psOperation "DestinationCRS.CoordinateReferenceSystem" = none →
      WCTSIsTransformable env psOperation p
        = .exit 1 { q with
            stdout := q.stdout ++ serviceExceptionReport
              "Unable to identify DestinationCRS.CoordinateReferenceSystem" })
    ∧ (∀ psSrcXMLCRS status q,
      CPLGetXMLNode psOperation "SourceCRS.CoordinateReferenceSystem" = some psSrcXMLCRS →
      WCTSImportCoordinateReferenceSystem env psSrcXMLCRS p = .exit status q →
      WCTSIsTransformable env psOperation p = .exit status q) := by
  refine ⟨?_, ?_, ?_⟩
  · intro h
    simp only [WCTSIsTransformable, h, emit_apply]
  · intro src crs q hs hi hd
    simp only [WCTSIsTransformable, hs, hd, bind_apply, hi, emit_apply]
  · intro src status q hs hi
    simp only [WCTSIsTransformable, hs, bind_apply, hi]

/-- The amended claim C4 at concrete nodes: no subtree at all, and a valid source
subtree without a destination subtree. -/
theorem isTransformable_missing_side_witness :
    WCTSIsTransformable (exampleEnv (some "POST") none []) (element "Transformable" [])
        (start [])
      = .exit 1 { start [] with
          stdout := "" ++ serviceExceptionReport
            "Unable to identify SourceCRS.CoordinateReferenceSystem" }
    ∧ WCTSIsTransformable (exampleEnv (some "POST") none [])
        (element "Transformable" [element "SourceCRS" [crsNode "EPSG" "4326"]]) (start [])
      = .exit 1 { start [] with
          stdout := "" ++ serviceExceptionReport
            "Unable to identify DestinationCRS.CoordinateReferenceSystem"
          trace := [.importFromEPSG 4326] } :=
  ⟨(isTransformable_missing_side _ (element "Transformable" []) (start [])).1 rfl,
    (isTransformable_missing_side (exampleEnv (some "POST") none [])
      (element "Transformable" [element "SourceCRS" [crsNode "EPSG" "4326"]]) (start [])).2.1
      (crsNode "EPSG" "4326") { nEPSGCode := 4326 }
      { start [] with trace := [.importFromEPSG 4326] } rfl (by decide) rfl⟩

/-! ## Reading the POST body -/

/-- What `WCTSCollectRequest` does for a request that is not GET and carries a
`CONTENT_LENGTH` that `atoi` reads as `n`, not negative and below `INT_MAX`. -/
theorem collect_contentLength (env : Env) (pszMethod pszContentLength : String) (n : Nat)
    (p : Process) (hm : env.REQUEST_METHOD = some pszMethod)
    (hpost : EQUAL pszMethod "GET" = false)
    (hcl : env.CONTENT_LENGTH = some pszContentLength) (hn : atoi pszContentLength = n)
    (hmax : (n : Int) < INT_MAX) :
    WCTSCollectRequest env p
      = if p.stdin.length < n then
          .exit 1 { p with
            stdin := [], feof := true
            stdout := p.stdout ++ serviceExceptionReport "POST body is short." }
        else parseRequest env (p.stdin.take n) { p with stdin := p.stdin.drop n } := by
  simp only [WCTSCollectRequest, hm, hpost, hcl, readContentLength, bind_apply, fread, hn]
  have h0 : ¬ ((n : Int) < 0) := by omega
  have hne : ((n : Int) == INT_MAX) = false := by
    rw [beq_eq_false_iff_ne]
    exact ne_of_lt hmax
  simp only [hne, h0, if_false, pure, Int.toNat_ofNat, List.length_take, Nat.cast_lt,
    Bool.false_eq_true]
  by_cases hs : p.stdin.length < n
  · have h1 : min n p.stdin.length < n := by omega
    have h2 : List.drop n p.stdin = [] := List.drop_eq_nil_of_le (by omega)
    simp [hs, h1, h2, emit_apply, bind_apply, fread]
  · have h1 : ¬ (min n p.stdin.length < n) := by omega
    simp [hs, h1, bind_apply, fread]

/-- Every outcome of `parseRequest` records the parser call and leaves the input
as it is. -/
theorem parseRequest_proc (env : Env) (pszXML : List Char) (p : Process) :
    (parseRequest env pszXML p).proc.trace = p.trace ++ [.parse pszXML]
      ∧ (parseRequest env pszXML p).proc.stdin = p.stdin := by
  simp only [parseRequest, bind_apply, call]
  cases env.CPLParseXMLString pszXML <;> simp [emit_apply, Result.proc, pure]

set_option maxRecDepth 100000 in
/-- Claim C8, refuted as stated.  `CONTENT_LENGTH=4294967299` reads as the integer
4294967299 and only five bytes are on the input, yet the request does not end
with "POST body is short.": stored in the `int` `nContentLength` the length is 3,
so three bytes are read and handed to the parser.  At
`CONTENT_LENGTH=2147483647` the sum `nContentLength+1` of line 114 overflows and
the request does not end with the exception either. -/
theorem content_length_beyond_int :
    leadingInteger "4294967299" = 4294967299
    ∧ WCTSCollectRequest (exampleEnv (some "POST") (some "4294967299") []) (start "abcde".toList)
      = .ret [] { start "abcde".toList with stdin := ['d', 'e'], trace := [.parse ['a', 'b', 'c']] }
    ∧ leadingInteger "2147483647" = 2147483647
    ∧ WCTSCollectRequest (exampleEnv (some "POST") (some "2147483647") []) (start "abcde".toList)
      = .undefined (start "abcde".toList) :=
  ⟨by decide, rfl, by decide, rfl⟩

/-- Claim C8 (as amended).  For a POST request whose `CONTENT_LENGTH` reads as an
integer `N` with `0 <= N < INT_MAX`, the request reader ends with the
ServiceException "POST body is short." (without calling the parser) if and only
if fewer than `N` bytes are available on the input; otherwise it reads exactly
the first `N` bytes, hands exactly those to the parser, and leaves the rest of
the input unread. -/
theorem content_length_read (env : Env) (pszMethod pszContentLength : String) (p : Process)
    (hm : env.REQUEST_METHOD = some pszMethod) (hpost : EQUAL pszMethod "GET" = false)
    (hcl : env.CONTENT_LENGTH = some pszContentLength)
    (hN : 0 ≤ leadingInteger pszContentLength)
    (hmax : leadingInteger pszContentLength < INT_MAX) :
    (WCTSCollectRequest env p
        = .exit 1 { p with
            stdin := [], feof := true
            stdout := p.stdout ++ serviceExceptionReport "POST body is short." }
      ↔ (p.stdin.length : Int) < leadingInteger pszContentLength)
    ∧ ((leadingInteger pszContentLength ≤ (p.stdin.length : Int)) →
      WCTSCollectRequest env p
          = parseRequest env (p.stdin.take (leadingInteger pszContentLength).toNat)
              { p with stdin := p.stdin.drop (leadingInteger pszContentLength).toNat }
      ∧ (WCTSCollectRequest env p).proc.trace
          = p.trace ++ [.parse (p.stdin.take (leadingInteger pszContentLength).toNat)]
      ∧ (WCTSCollectRequest env p).proc.stdin
          = p.stdin.drop (leadingInteger pszContentLength).toNat) := by
  have ha : atoi pszContentLength = leadingInteger pszContentLength :=
    atoi_of_range _ (by unfold INT_MIN; omega) (le_of_lt hmax)
  obtain ⟨n, hn⟩ : ∃ n : Nat, leadingInteger pszContentLength = n :=
    ⟨(leadingInteger pszContentLength).toNat, (Int.toNat_of_nonneg hN).symm⟩
  rw [hn] at ha hmax
  have key := collect_contentLength env pszMethod pszContentLength n p hm hpost hcl ha hmax
  rw [hn, Int.toNat_ofNat]
  by_cases hs : p.stdin.length < n
  · rw [if_pos hs] at key
    refine ⟨⟨fun _ => by exact_mod_cast hs, fun _ => key⟩, fun h => ?_⟩
    exact absurd hs (by omega)
  · rw [if_neg hs] at key
    have hp := parseRequest_proc env (p.stdin.take n) { p with stdin := p.stdin.drop n }
    refine ⟨⟨fun h => ?_, fun h => ?_⟩, fun _ => ⟨key, ?_, ?_⟩⟩
    · rw [key] at h
      have ht := hp.1
      rw [h] at ht
      exact absurd ht (trace_append_ne _ _)
    · exact absurd h (by omega)
    · rw [key]; exact hp.1
    · rw [key]; exact hp.2

/-- The amended claim C8 at concrete requests: `CONTENT_LENGTH=3` with five bytes
of input (the parser gets the first three, two stay unread) and
`CONTENT_LENGTH=10` with five bytes of input (the body is short). -/
theorem content_length_read_witness :
    (WCTSCollectRequest (exampleEnv (some "POST") (some "3") []) (start "abcde".toList)).proc
        = { start "abcde".toList with stdin := ['d', 'e'], trace := [.parse ['a', 'b', 'c']] }
    ∧ WCTSCollectRequest (exampleEnv (some "POST") (some "10") []) (start "abcde".toList)
        = .exit 1 { start "abcde".toList with
            stdin := [], feof := true
            stdout := "" ++ serviceExceptionReport "POST body is short." } :=
  ⟨by
      have h := ((content_length_read (exampleEnv (some "POST") (some "3") []) "POST" "3"
        (start "abcde".toList) rfl (by decide) rfl (by decide) (by decide)).2 (by decide)).1
      rw [h]
      decide,
    (content_length_read (exampleEnv (some "POST") (some "10") []) "POST" "10"
      (start "abcde".toList) rfl (by decide) rfl (by decide) (by decide)).1.2 (by decide)⟩

/-- The read loop stores every byte of the stream in order and then one more
byte, the converted `EOF`. -/
theorem readLoop_pszXML (stdin : List Char) (b : Buffer) :
    (readLoop stdin b).pszXML = b.pszXML ++ stdin ++ [toChar EOF] := by
  induction stdin generalizing b with
  | nil => simp [readLoop, Buffer.store]
  | cons c cs ih => simp [readLoop, ih, Buffer.store]

/-- The read loop keeps the count equal to the number of stored bytes and below
the allocated size, so the terminator is stored inside the buffer. -/
theorem readLoop_bounds (stdin : List Char) (b : Buffer)
    (hlen : b.nXMLLen = b.pszXML.length) (hmax : b.nXMLLen < b.nXMLMax) :
    (readLoop stdin b).nXMLLen = (readLoop stdin b).pszXML.length
      ∧ (readLoop stdin b).nXMLLen < (readLoop stdin b).nXMLMax := by
  have hstore : ∀ (b : Buffer) (c : Char), b.nXMLLen = b.pszXML.length →
      b.nXMLLen < b.nXMLMax →
      (b.store c).nXMLLen = (b.store c).pszXML.length
        ∧ (b.store c).nXMLLen < (b.store c).nXMLMax := by
    intro b c h1 h2
    refine ⟨by simp [Buffer.store, h1], ?_⟩
    by_cases h : b.nXMLLen + 1 = b.nXMLMax
    · simp [Buffer.store, h]; omega
    · simp [Buffer.store, h]; omega
  induction stdin generalizing b with
  | nil => exact hstore b _ hlen hmax
  | cons c cs ih =>
    obtain ⟨h1, h2⟩ := hstore b c hlen hmax
    exact ih (b.store c) h1 h2

/-- For every POST request without `CONTENT_LENGTH` and every input stream, the
buffer handed to the parser is the stream followed by one extra byte, the `EOF`
value converted to a character (0xFF). -/
theorem collect_appends_eof_byte (env : Env) (pszMethod : String) (stdin : List Char)
    (hm : env.REQUEST_METHOD = some pszMethod) (hpost : EQUAL pszMethod "GET" = false)
    (hcl : env.CONTENT_LENGTH = none) :
    (WCTSCollectRequest env (start stdin)).proc.trace
      = [.parse (stdin ++ [Char.ofNat 255])] := by
  have hp := parseRequest_proc env (stdin ++ [Char.ofNat 255])
    { start stdin with stdin := [], feof := true }
  have hc : toChar EOF = Char.ofNat 255 := by decide
  have hrun : WCTSCollectRequest env (start stdin)
      = parseRequest env (stdin ++ [Char.ofNat 255])
          { start stdin with stdin := [], feof := true } := by
    simp [WCTSCollectRequest, hm, hpost, hcl, bind_apply, readToEOF, start, readLoop_pszXML, hc]
  rw [hrun]
  simpa [start] using hp.1

/-- Claim C5, evaluated at a failing input.  A POST request without
`CONTENT_LENGTH` whose input stream is the 18 bytes `<GetCapabilities/>`: the
buffer handed to the parser holds 19 bytes, the stream followed by the byte 0xFF
(the value `EOF` stored as a character). -/
theorem eof_byte_in_request_buffer :
    (WCTSCollectRequest (exampleEnv (some "POST") none [element "GetCapabilities" []])
        (start "<GetCapabilities/>".toList)).proc.trace
      = [.parse ("<GetCapabilities/>".toList ++ [Char.ofNat 255])]
    ∧ ("<GetCapabilities/>".toList ++ [Char.ofNat 255]).length = 19
    ∧ "<GetCapabilities/>".toList.length = 18 := by
  decide

/-! ## The Transform stub -/

set_option maxRecDepth 100000 in
/-- Claim C6, evaluated at a failing input.  A POST request whose only top-level
node is `Transform`: `WCTSTransform` returns without writing anything and the
`assert( FALSE )` that follows ends the process with nothing on standard output.
Compiled with `NDEBUG`, the loop goes on instead and the request ends with the
report "No recognisable supported request found.". -/
theorem transform_request_gets_no_response :
    main (exampleEnv (some "POST") (some "12") [element "Transform" []])
        (start "<Transform/>".toList)
      = .abort { start [] with trace := [.parse "<Transform/>".toList] }
    ∧ (main (exampleEnv (some "POST") (some "12") [element "Transform" []])
        (start "<Transform/>".toList)).proc.stdout = ""
    ∧ main { exampleEnv (some "POST") (some "12") [element "Transform" []] with NDEBUG := true }
        (start "<Transform/>".toList)
      = .exit 1 { start [] with
          stdout := serviceExceptionReport "No recognisable supported request found."
          trace := [.parse "<Transform/>".toList] } := by
  decide

/-! ## The operation router -/

/-- A part of the program that does not return is not followed by anything. -/
theorem bind_of_ends (m : Run Unit) (f : Unit → Run Unit) (p : Process)
    (h : ∀ a q, m p ≠ .ret a q) : (m >>= f) p = m p := by
  rw [bind_apply]
  cases hm : m p with
  | ret a q => exact absurd hm (h a q)
  | exit s q => rfl
  | abort q => rfl
  | undefined q => rfl

theorem getCapabilities_ends (env : Env) (n : CPLXMLNode) (p : Process) :
    ∀ a q, WCTSGetCapabilities env n p ≠ .ret a q := by
  intro a q
  obtain ⟨h1, h2⟩ := getCapabilities_cases env n p
  cases h : EQUAL (CPLGetXMLValue n "service" "WCTS") "WCTS" with
  | false => rw [h1 h]; simp
  | true => rw [h2 h]; cases env.capabilities <;> simp

theorem isTransformable_ends (env : Env) (n : CPLXMLNode) (p : Process) :
    ∀ a q, WCTSIsTransformable env n p ≠ .ret a q := by
  intro a q
  simp only [WCTSIsTransformable]
  cases CPLGetXMLNode n "SourceCRS.CoordinateReferenceSystem" with
  | none => simp [emit_apply]
  | some src =>
    simp only [bind_apply]
    cases WCTSImportCoordinateReferenceSystem env src p with
    | ret crs p1 =>
      cases CPLGetXMLNode n "DestinationCRS.CoordinateReferenceSystem" with
      | none => simp [emit_apply]
      | some dst =>
        simp only [bind_apply]
        cases WCTSImportCoordinateReferenceSystem env dst p1 <;>
          simp [call, printf, exit, bind_apply]
    | exit s q => simp
    | abort q => simp
    | undefined q => simp

/-- Two names that both equal a third one ignoring case equal each other ignoring case. -/
theorem EQUAL_trans (a b c : String) (h1 : EQUAL a b = true) (h2 : EQUAL a c = true) :
    EQUAL b c = true := by
  simp only [EQUAL, beq_iff_eq] at *
  rw [← h1, ← h2]

/-- The loop of `main` passes over a node that is not a recognised operation. -/
theorem mainLoop_skip (env : Env) (n : CPLXMLNode) (rest : List CPLXMLNode) (p : Process)
    (h : recognised n = false) : mainLoop env (n :: rest) p = mainLoop env rest p := by
  simp only [recognised, Bool.and_eq_false_iff, Bool.or_eq_false_iff] at h
  rw [mainLoop]
  rcases h with h | ⟨⟨⟨h1, h2⟩, h3⟩, h4⟩
  · simp [h, bind_apply, pure]
  · simp [h1, h2, h3, h4, bind_apply, pure]

theorem mainLoop_skip_unrecognised (env : Env) (pre rest : List CPLXMLNode) (p : Process)
    (h : ∀ m ∈ pre, recognised m = false) :
    mainLoop env (pre ++ rest) p = mainLoop env rest p := by
  induction pre with
  | nil => rfl
  | cons m ms ih =>
    rw [List.cons_append, mainLoop_skip env m _ p (h m (List.mem_cons_self _ _))]
    exact ih (fun x hx => h x (List.mem_cons_of_mem _ hx))

theorem route_skip_unrecognised (env : Env) (pre rest : List CPLXMLNode) (p : Process)
    (h : ∀ m ∈ pre, recognised m = false) : route env (pre ++ rest) p = route env rest p := by
  simp only [route, bind_apply, mainLoop_skip_unrecognised env pre rest p h]

/-- Claim C1.  The router dispatches on the first top-level node that is a
recognised operation (an element whose tag equals one of the four operation
names ignoring case): whatever unrecognised nodes `pre` come before it and
whatever nodes `post` come after it, a GetCapabilities node is handled by
`WCTSGetCapabilities`, a Transformable node by `WCTSIsTransformable`, a
DescribeTransformation node by the fixed ServiceException, and a Transform node
by the stub `WCTSTransform` followed by `assert( FALSE )`.  In particular, for a
Transformable node `T` and an unrecognised node `Foo`, the forests `[Foo, T]`,
`[T, Foo]` and `[T]` all give the outcome of `WCTSIsTransformable` on `T`. -/
theorem route_dispatches_first_recognised (env : Env) (pre post : List CPLXMLNode)
    (n : CPLXMLNode) (p : Process)
    (hpre : ∀ m ∈ pre, recognised m = false) (hn : n.eType = .CXT_Element) :
    (EQUAL n.pszValue "GetCapabilities" = true →
      route env (pre ++ n :: post) p = WCTSGetCapabilities env n p)
    ∧ (EQUAL n.pszValue "Transformable" = true →
      route env (pre ++ n :: post) p = WCTSIsTransformable env n p
      ∧ route env (pre ++ n :: post) p = route env [n] p
      ∧ ∀ Foo, recognised Foo = false →
        route env [Foo, n] p = WCTSIsTransformable env n p
        ∧ route env [n, Foo] p = WCTSIsTransformable env n p
        ∧ route env [n] p = WCTSIsTransformable env n p)
    ∧ (EQUAL n.pszValue "DescribeTransformation" = true →
      route env (pre ++ n :: post) p
        = .exit 1 { p with
            stdout := p.stdout ++ serviceExceptionReport
              "This server does not support the DescribeTransformation operation." })
    ∧ (EQUAL n.pszValue "Transform" = true →
      route env (pre ++ n :: post) p
        = if env.NDEBUG then route env post p else .abort p) := by
  have hex : ∀ b c : String, EQUAL n.pszValue b = true → EQUAL b c = false →
      EQUAL n.pszValue c = false := by
    intro b c hb hbc
    cases hc : EQUAL n.pszValue c with
    | false => rfl
    | true => rw [EQUAL_trans _ _ _ hb hc] at hbc; cases hbc
  have hT : ∀ rest, EQUAL n.pszValue "Transformable" = true →
      route env (n :: rest) p = WCTSIsTransformable env n p := by
    intro rest h
    have h1 := hex _ "GetCapabilities" h (by decide)
    have hends := isTransformable_ends env n p
    have hstep : mainLoop env (n :: rest) p = WCTSIsTransformable env n p := by
      rw [mainLoop]
      simp only [hn, h, h1, beq_self_eq_true, Bool.and_true, Bool.and_false, Bool.false_eq_true,
        if_false, if_true]
      exact bind_of_ends _ _ p hends
    rw [route, bind_of_ends _ _ p]
    · exact hstep
    · rw [hstep]; exact hends
  refine ⟨?_, ?_, ?_, ?_⟩
  · intro h
    rw [route_skip_unrecognised env pre _ p hpre]
    have hends := getCapabilities_ends env n p
    have hstep : mainLoop env (n :: post) p = WCTSGetCapabilities env n p := by
      rw [mainLoop]
      simp only [hn, h, beq_self_eq_true, Bool.and_true, if_true]
      exact bind_of_ends _ _ p hends
    rw [route, bind_of_ends _ _ p]
    · exact hstep
    · rw [hstep]; exact hends
  · intro h
    refine ⟨?_, ?_, ?_⟩
    · rw [route_skip_unrecognised env pre _ p hpre]
      exact hT post h
    · rw [route_skip_unrecognised env pre _ p hpre, hT post h, hT [] h]
    · intro Foo hFoo
      refine ⟨?_, hT [Foo] h, hT [] h⟩
      have := route_skip_unrecognised env [Foo] [n] p (by simpa using hFoo)
      rw [List.singleton_append] at this
      rw [this]
      exact hT [] h
  · intro h
    rw [route_skip_unrecognised env pre _ p hpre]
    have h1 := hex _ "GetCapabilities" h (by decide)
    have h2 := hex _ "Transformable" h (by decide)
    have h3 := hex _ "Transform" h (by decide)
    rw [route, bind_apply, mainLoop]
    simp [hn, h, h1, h2, h3, bind_apply, emit_apply]
  · intro h
    rw [route_skip_unrecognised env pre _ p hpre]
    have h1 := hex _ "GetCapabilities" h (by decide)
    have h2 := hex _ "Transformable" h (by decide)
    rw [route, bind_apply, mainLoop]
    cases hd : env.NDEBUG <;>
      simp [hn, h, h1, h2, bind_apply, WCTSTransform, assertFALSE, hd, pure, route]

set_option maxRecDepth 100000 in
/-- Claim C1 at a concrete request: a lower-case `transformable` node from
EPSG:4326 to EPSG:4326 and an unrecognised `Foo` element. -/
theorem route_dispatches_first_recognised_witness :
    route (exampleEnv (some "POST") none []) [element "Foo" [], exampleTransformable] (start [])
        = WCTSIsTransformable (exampleEnv (some "POST") none []) exampleTransformable (start [])
    ∧ route (exampleEnv (some "POST") none []) [exampleTransformable, element "Foo" []] (start [])
        = WCTSIsTransformable (exampleEnv (some "POST") none []) exampleTransformable (start [])
    ∧ route (exampleEnv (some "POST") none []) [exampleTransformable] (start [])
        = WCTSIsTransformable (exampleEnv (some "POST") none []) exampleTransformable (start [])
    ∧ WCTSIsTransformable (exampleEnv (some "POST") none []) exampleTransformable (start [])
        = .exit 0 { start [] with
            stdout := transformableResponse "true"
            trace := [.importFromEPSG 4326, .importFromEPSG 4326, .createCT 4326 4326] }
    ∧ main (exampleEnv (some "POST") (some "4") [element "Foo" [], exampleTransformable])
          (start "<a/>".toList)
        = .exit 0 { start [] with
            stdout := transformableResponse "true"
            trace := [.parse "<a/>".toList, .importFromEPSG 4326, .importFromEPSG 4326,
              .createCT 4326 4326] } :=
  have h := ((route_dispatches_first_recognised (exampleEnv (some "POST") none []) [] []
    exampleTransformable (start []) (by simp) rfl).2.1 (by decide)).2.2
      (element "Foo" []) (by decide)
  ⟨h.1, h.2.1, h.2.2, by decide, by decide⟩

/-! ## Exit status -/

theorem responds_bind {α β : Type} (out : String) (m : Run α) (f : α → Run β) (p : Process)
    (hm : Responds out (m p)) (hf : ∀ a q, q.stdout = out → Responds out (f a q)) :
    Responds out ((m >>= f) p) := by
  rw [bind_apply]
  cases h : m p with
  | ret a q => rw [h] at hm; exact hf a q hm
  | exit s q => rw [h] at hm; exact hm
  | abort q => rw [h] at hm; exact hm
  | undefined q => rw [h] at hm; exact hm

theorem responds_emit {α : Type} (pszMessage : String) (p : Process) :
    Responds p.stdout ((WCTSEmitServiceException pszMessage : Run α) p) := by
  rw [emit_apply]
  exact Or.inl ⟨rfl, pszMessage, rfl⟩

theorem responds_parseRequest (env : Env) (pszXML : List Char) (p : Process) :
    Responds p.stdout (parseRequest env pszXML p) := by
  simp only [parseRequest, bind_apply, call]
  cases env.CPLParseXMLString pszXML with
  | error msg => exact Or.inl ⟨rfl, msg, rfl⟩
  | ok t => rfl

theorem responds_readContentLength (s : String) (p : Process) :
    Responds p.stdout (readContentLength s p) := by
  unfold readContentLength
  by_cases hm : (atoi s == INT_MAX) = true
  · simp [hm, Responds, bind_apply]
  · by_cases h0 : atoi s < 0
    · simp [hm, h0, Responds, bind_apply, pure]
    · by_cases h1 : (p.stdin.length : Int) < atoi s
      · simp only [hm, h0, if_false, bind_apply, pure, fread, Bool.false_eq_true]
        have h2 : ((List.take (atoi s).toNat p.stdin).length : Int) < atoi s := by
          rw [List.length_take]
          omega
        simp only [h2, if_true, bind_apply, emit_apply]
        exact Or.inl ⟨rfl, _, rfl⟩
      · simp [hm, h0, pure, fread, h1, Responds, bind_apply]

theorem responds_collect (env : Env) (p : Process) :
    Responds p.stdout (WCTSCollectRequest env p) := by
  unfold WCTSCollectRequest
  cases env.REQUEST_METHOD with
  | none => exact responds_emit _ p
  | some pszMethod =>
    by_cases hg : EQUAL pszMethod "GET" = true
    · simp only [hg, if_true, WCTSCollectKVPRequest, bind_apply, emit_apply]
      exact Or.inl ⟨rfl, _, rfl⟩
    · simp only [hg, if_false, Bool.false_eq_true]
      apply responds_bind
      · cases env.CONTENT_LENGTH with
        | none =>
          by_cases hf : p.feof = true <;> simp [readToEOF, hf, Responds]
        | some s => exact responds_readContentLength s p
      · intro a q hq
        rw [← hq]
        exact responds_parseRequest env a q

theorem responds_getCapabilities (env : Env) (n : CPLXMLNode) (p : Process) :
    Responds p.stdout (WCTSGetCapabilities env n p) := by
  obtain ⟨h1, h2⟩ := getCapabilities_cases env n p
  cases h : EQUAL (CPLGetXMLValue n "service" "WCTS") "WCTS" with
  | false => rw [h1 h]; exact Or.inl ⟨rfl, _, rfl⟩
  | true =>
    rw [h2 h]
    cases env.capabilities with
    | none => exact Or.inl ⟨rfl, _, rfl⟩
    | some d => exact Or.inr ⟨rfl, Or.inl ⟨d, rfl⟩⟩

theorem responds_import (env : Env) (n : CPLXMLNode) (p : Process) :
    Responds p.stdout (WCTSImportCoordinateReferenceSystem env n p) := by
  obtain ⟨h1, h2, h3⟩ := import_cases env n p
  cases h : EQUAL (CPLGetXMLValue n "Identifier.codeSpace" "") "EPSG" with
  | false => rw [h1 h]; exact Or.inl ⟨rfl, _, rfl⟩
  | true =>
    by_cases hc : atoi (CPLGetXMLValue n "Identifier.code" "0") = 0
    · rw [h2 h hc]; exact Or.inl ⟨rfl, _, rfl⟩
    · rw [h3 h hc]
      cases env.importFromEPSG (atoi (CPLGetXMLValue n "Identifier.code" "0")) with
      | none => rfl
      | some msg => exact Or.inl ⟨rfl, _, rfl⟩

theorem responds_isTransformable (env : Env) (n : CPLXMLNode) (p : Process) :
    Responds p.stdout (WCTSIsTransformable env n p) := by
  unfold WCTSIsTransformable
  cases CPLGetXMLNode n "SourceCRS.CoordinateReferenceSystem" with
  | none => exact responds_emit _ p
  | some src =>
    apply responds_bind _ _ _ _ (responds_import env src p)
    intro crs q hq
    cases CPLGetXMLNode n "DestinationCRS.CoordinateReferenceSystem" with
    | none => rw [← hq]; exact responds_emit _ q
    | some dst =>
      rw [← hq]
      apply responds_bind _ _ _ _ (responds_import env dst q)
      intro crs2 q2 hq2
      simp only [bind_apply, call, printf, exit]
      exact Or.inr ⟨rfl, Or.inr ⟨_, by rw [hq2]⟩⟩

theorem responds_assert (env : Env) (p : Process) : Responds p.stdout (assertFALSE env p) := by
  cases h : env.NDEBUG <;> simp [assertFALSE, h, Responds]

theorem responds_mainLoop (env : Env) (l : List CPLXMLNode) :
    ∀ p : Process, Responds p.stdout (mainLoop env l p) := by
  induction l with
  | nil => intro p; rfl
  | cons n rest ih =>
    intro p
    have hrest : ∀ (a : Unit) (q : Process), q.stdout = p.stdout →
        Responds p.stdout ((do assertFALSE env; mainLoop env rest : Run Unit) q) := by
      intro a q hq
      rw [← hq]
      apply responds_bind _ _ _ _ (responds_assert env q)
      intro b q2 hq2
      rw [← hq2]
      exact ih q2
    rw [mainLoop]
    split_ifs
    · exact responds_bind _ _ _ _ (responds_getCapabilities env n p) hrest
    · exact responds_bind _ _ _ _ (responds_isTransformable env n p) hrest
    · exact responds_bind _ _ _ _ (by rfl) hrest
    · exact responds_bind _ _ _ _ (responds_emit _ p) (fun a q hq => by rw [← hq]; exact ih q)
    · exact responds_bind _ _ _ _ (by rfl) (fun a q hq => by rw [← hq]; exact ih q)

theorem responds_main (env : Env) (p : Process) : Responds p.stdout (main env p) := by
  unfold main
  apply responds_bind _ _ _ _ (responds_collect env p)
  intro t q hq
  rw [← hq]
  unfold route
  apply responds_bind _ _ _ _ (responds_mainLoop env t q)
  intro a q2 hq2
  rw [← hq2, bind_apply, emit_apply]
  exact Or.inl ⟨rfl, _, rfl⟩

theorem head_of_append (a x : String) (k : Nat) (h : k ≤ a.length) :
    (a ++ x).data.take k = a.data.take k := by
  rw [String.data_append]
  exact List.take_append_of_le_length h

/-- Every ServiceExceptionReport starts with `Content-type: a`. -/
theorem report_head (pszMessage : String) :
    (serviceExceptionReport pszMessage).data.take 15 = "Content-type: a".data := by
  unfold serviceExceptionReport
  simp only [String.append_assoc]
  rw [head_of_append _ _ 15 (by decide)]
  decide

/-- The capabilities response starts with `Content-type: t`. -/
theorem capabilities_head (pszDoc : String) :
    ("Content-type: test/xml\n\n" ++ pszDoc).data.take 15 = "Content-type: t".data := by
  rw [head_of_append _ _ 15 (by decide)]
  decide

/-- The TransformableResponse starts with `Content-type: t`. -/
theorem transformable_head (pszResult : String) :
    (transformableResponse pszResult).data.take 15 = "Content-type: t".data := by
  unfold transformableResponse
  simp only [String.append_assoc]
  rw [head_of_append _ _ 15 (by decide)]
  decide

theorem append_left_cancel_data (o a b : String) (h : o ++ a = o ++ b) : a.data = b.data := by
  have := congrArg String.data h
  simpa [String.data_append] using this

set_option maxRecDepth 100000 in
/-- Claim C3, refuted as stated.  Three requests that end with a
ServiceExceptionReport and exit status 1 without reaching the fall-through
after the operation loop: `REQUEST_METHOD` not set (transport), a POST body
shorter than `CONTENT_LENGTH` (transport), and a Transformable request whose
source code space is "OGC" (decoding). -/
theorem exception_report_exits_with_one :
    main (exampleEnv none none []) (start [])
      = .exit 1 { start [] with stdout := serviceExceptionReport "REQUEST_METHOD not set." }
    ∧ main (exampleEnv (some "POST") (some "10") []) (start "<a/>".toList)
      = .exit 1 { start [] with
          feof := true, stdout := serviceExceptionReport "POST body is short." }
    ∧ main (exampleEnv (some "POST") (some "4")
          [element "Transformable" [element "SourceCRS" [crsNode "OGC" "4326"]]])
        (start "<a/>".toList)
      = .exit 1 { start [] with
          stdout := serviceExceptionReport codeSpaceMessage
          trace := [.parse "<a/>".toList] } := by
  decide

/-- Claim C3 (as amended).  Whenever the process ends through `exit`, exactly one
response has been written and the exit status follows its kind: the status is 1
when the response is a ServiceExceptionReport (whatever produced it:
transport, parse, validation or decoding failure, an unsupported operation, or
the fall-through after the operation loop), and the status is 0 only when the
response is the capabilities document or a TransformableResponse. -/
theorem exit_status_of_response (env : Env) (p : Process) (status : Int) (q : Process)
    (h : main env p = .exit status q) :
    ((status = 1 ∧ ∃ msg, q.stdout = p.stdout ++ serviceExceptionReport msg)
      ∨ (status = 0
        ∧ ((∃ pszDoc, q.stdout = p.stdout ++ "Content-type: test/xml\n\n" ++ pszDoc)
          ∨ ∃ pszResult, q.stdout = p.stdout ++ transformableResponse pszResult)))
    ∧ ((∃ msg, q.stdout = p.stdout ++ serviceExceptionReport msg) → status = 1) := by
  have hr := responds_main env p
  rw [h] at hr
  refine ⟨hr, ?_⟩
  rintro ⟨msg, hmsg⟩
  rcases hr with ⟨h1, -⟩ | ⟨-, ⟨d, hd⟩ | ⟨r, hr⟩⟩
  · exact h1
  · rw [hmsg, String.append_assoc] at hd
    have := congrArg (List.take 15) (append_left_cancel_data _ _ _ hd)
    rw [report_head, capabilities_head] at this
    exact absurd this (by decide)
  · rw [hmsg] at hr
    have := congrArg (List.take 15) (append_left_cancel_data _ _ _ hr)
    rw [report_head, transformable_head] at this
    exact absurd this (by decide)

set_option maxRecDepth 100000 in
/-- The amended claim C3 at a concrete request: a GetCapabilities request ends
with exit status 0 and its output is not a ServiceExceptionReport. -/
theorem exit_status_of_response_witness :
    main (exampleEnv (some "POST") (some "18") [element "GetCapabilities" []])
        (start "<GetCapabilities/>".toList)
      = .exit 0 { start [] with
          stdout := "Content-type: test/xml\n\n<WCTS_Capabilities version=\"0.0.3\"/>\n"
          trace := [.parse "<GetCapabilities/>".toList,
            .findFile "wcts_capabilities.xml.0.0.3"] }
    ∧ ¬ ∃ msg, "Content-type: test/xml\n\n<WCTS_Capabilities version=\"0.0.3\"/>\n"
        = "" ++ serviceExceptionReport msg :=
  ⟨by decide, fun hm =>
    absurd ((exit_status_of_response
      (exampleEnv (some "POST") (some "18") [element "GetCapabilities" []])
      (start "<GetCapabilities/>".toList) 0
      { start [] with
          stdout := "Content-type: test/xml\n\n<WCTS_Capabilities version=\"0.0.3\"/>\n"
          trace := [.parse "<GetCapabilities/>".toList,
            .findFile "wcts_capabilities.xml.0.0.3"] } (by decide)).2 hm) (by decide)⟩

end WCTS
